import Mathlib

/-!
Verification of the build configuration in src/vite.config.ts.

The configuration registers three bundler plugins (the TanStack router
code-generation plugin with an `autoCodeSplitting` flag and a
`routeFileIgnorePattern` string, the React compiler plugin, and the
Tailwind CSS plugin) and declares a single path alias mapping `@` to
`resolve(__dirname, './src')`.

The route generator itself and the platform path resolver are external
to the repository; where a claim depends on their behaviour they are
modelled from the specification, as noted on each definition.
-/

/-- A token of the restricted regular-expression language in which the
configured ignore pattern is written: a literal character or the `.`
wildcard (which in a JavaScript regular expression matches any character
other than a line terminator). -/
inductive RegexToken where
  | lit (c : Char)
  | anyChar
  deriving DecidableEq

/-- Characters that are regular-expression metacharacters (beyond `.` and
the alternation bar handled separately): a pattern using them is outside
the restricted language and is treated as malformed. -/
def regexMeta : List Char := ['(', ')', '[', ']', '\x7b', '\x7d', '*', '+', '?', '^', '$', '\\']

/-- Parse one alternation-free alternative of a pattern: `.` becomes the
wildcard, a metacharacter makes the pattern malformed, any other
character is a literal. -/
def parseAlt : List Char → Option (List RegexToken)
  | [] => some []
  | c :: rest =>
    if c = '.' then (parseAlt rest).map (fun ts => RegexToken.anyChar :: ts)
    else if c ∈ regexMeta then none
    else (parseAlt rest).map (fun ts => RegexToken.lit c :: ts)

/-- Split a character list on a separator character. -/
def splitOnChar (sep : Char) : List Char → List (List Char)
  | [] => [[]]
  | c :: rest =>
    if c = sep then [] :: splitOnChar sep rest
    else
      match splitOnChar sep rest with
      | [] => [[c]]
      | grp :: grps => (c :: grp) :: grps

/-- Parse a pattern string: a pipe-separated alternation of alternatives,
each a sequence of literals and wildcards; `none` when malformed. -/
def parsePattern (p : String) : Option (List (List RegexToken)) :=
  (splitOnChar '|' p.data).mapM parseAlt

/-- Does the token sequence match a leading segment of the characters
(leftover characters allowed)? -/
def altMatchesHere : List RegexToken → List Char → Bool
  | [], _ => true
  | _ :: _, [] => false
  | RegexToken.lit c :: ts, x :: xs => (c == x) && altMatchesHere ts xs
  | RegexToken.anyChar :: ts, x :: xs => (!(x == '\n')) && altMatchesHere ts xs

/-- Does the token sequence match starting at some position of the
characters?  This is the unanchored matching a JavaScript regular
expression performs. -/
def altMatchesSomewhere (ts : List RegexToken) : List Char → Bool
  | [] => altMatchesHere ts []
  | x :: xs => altMatchesHere ts (x :: xs) || altMatchesSomewhere ts xs

/-- The `routeFileIgnorePattern` string of src/vite.config.ts, line 13. -/
def routeFileIgnorePattern : String := ".stories.tsx|.model.ts|.test.ts|__tests__"

/-- The parsed alternatives of the configured ignore pattern. -/
def pAlts : List (List RegexToken) := (parsePattern routeFileIgnorePattern).getD []

/-- Modelled from the spec: whether the route generator (the TanStack
router plugin, which is not part of this repository) excludes a file
name under the given ignore pattern.  Per the spec, files matching the
pattern are skipped during route-table generation and a malformed
pattern silently fails to exclude anything. -/
def routeFileExcluded (p name : String) : Bool :=
  ((parsePattern p).getD []).any (fun a => altMatchesSomewhere a name.data)

/-- Modelled from the spec: route-table generation over the files of the
routes directory (the generator is not part of this repository).  Every
file matching the ignore pattern is omitted; every other file yields
exactly one route entry, identified here by the file name. -/
def generateRoutes (p : String) (files : List String) : List String :=
  files.filter (fun f => !routeFileExcluded p f)

/-- Is one character list a leading segment of another? -/
def listHasPre : List Char → List Char → Bool
  | [], _ => true
  | _ :: _, [] => false
  | c :: ps, x :: xs => (c == x) && listHasPre ps xs

/-- Is `w` a trailing segment of `s`? -/
def listHasSuf (w s : List Char) : Bool := listHasPre w.reverse s.reverse

/-- Does `w` occur contiguously inside the second list? -/
def listHasSub (w : List Char) : List Char → Bool
  | [] => listHasPre w []
  | c :: rest => listHasPre w (c :: rest) || listHasSub w rest

/-- Following the spec's class descriptions: a name literally ending in
the given marker string. -/
def endsWithMarker (marker s : String) : Bool := listHasSuf marker.data s.data

/-- Following the spec's class descriptions: a name literally containing
the given marker string. -/
def containsMarker (marker s : String) : Bool := listHasSub marker.data s.data

/-- Following the claims' description of the private-folder naming
convention: a dash-prefixed name such as `-components/...`. -/
def isPrivateName (s : String) : Bool := listHasPre ['-'] s.data

/-- Does the string start with the path separator, i.e. is it an
absolute POSIX path? -/
def isAbsolute (s : String) : Bool :=
  match s.data with
  | c :: _ => c == '/'
  | [] => false

/-- One step of path normalisation over already-split components: empty
and `.` components vanish, `..` removes the previous component. -/
def pathStep (acc : List (List Char)) (seg : List Char) : List (List Char) :=
  if seg = [] ∨ seg = ['.'] then acc
  else if seg = ['.', '.'] then acc.dropLast
  else acc ++ [seg]

/-- Join path components back with separators. -/
def joinSegs : List (List Char) → List Char
  | [] => []
  | [s] => s
  | s :: rest => s ++ '/' :: joinSegs rest

/-- Normalise a path: drop empty and `.` components, apply `..`, keep a
leading separator when the input is absolute. -/
def normalizePath (p : String) : String :=
  String.mk ((if isAbsolute p then ['/'] else []) ++
    joinSegs ((splitOnChar '/' p.data).foldl pathStep []))

/-- Right-to-left join step of path resolution: a later absolute segment
discards everything accumulated so far. -/
def joinRight (acc seg : String) : String :=
  if isAbsolute seg then seg else acc ++ "/" ++ seg

/-- Modelled from the spec: the platform path-resolution helper
`resolve` used on line 20 of src/vite.config.ts (not part of this
repository).  Segments are joined left to right starting from the
process working directory, a later absolute segment restarting the
result, and the outcome is normalised. -/
def nodeResolve (cwd : String) (segs : List String) : String :=
  normalizePath (segs.foldl joinRight cwd)

/-- The option record passed to the router plugin in
src/vite.config.ts, lines 11-14. -/
structure RouterPluginOptions where
  autoCodeSplitting : Bool
  routeFileIgnorePattern : String
  deriving DecidableEq

/-- The three plugin descriptors appearing in the configuration's plugin
list. -/
inductive PluginDesc where
  | tanStackRouterVite (opts : RouterPluginOptions)
  | react
  | tailwindcss
  deriving DecidableEq

/-- The configuration object exported by src/vite.config.ts: the plugin
list and the `resolve.alias` table. -/
structure ViteConfig where
  plugins : List PluginDesc
  resolveAlias : List (String × String)
  deriving DecidableEq

/-- The options passed to `TanStackRouterVite` on lines 11-14 of
src/vite.config.ts. -/
def routerPluginOptions : RouterPluginOptions := ⟨true, routeFileIgnorePattern⟩

/-- Evaluation of the configuration module src/vite.config.ts.  The
parameters expose the ambient state observable by such a module — its
own directory `__dirname`, the process working directory, and the
process environment — and the body is the translation of lines 9-23:
it reads only `dirname`. -/
def evalConfigModule (dirname cwd : String) (_env : String → Option String) : ViteConfig :=
  ⟨[PluginDesc.tanStackRouterVite routerPluginOptions, PluginDesc.react, PluginDesc.tailwindcss],
   [("@", nodeResolve cwd [dirname, "./src"])]⟩

/-- Modelled from the spec: application of the declared alias table to a
module reference during module resolution (performed by the bundler,
which is not part of this repository).  An entry applies when the
reference equals its key or extends it across a path separator; the key
is then replaced by the target. -/
def applyAlias (table : List (String × String)) (m : String) : String :=
  match table.find? (fun kv => (m == kv.1) || listHasPre (kv.1 ++ "/").data m.data) with
  | some kv => kv.2 ++ String.mk (m.data.drop kv.1.data.length)
  | none => m

/-- The parsed form of the configured ignore pattern is well defined. -/
theorem pAlts_spec : parsePattern routeFileIgnorePattern = some pAlts := rfl

/-- A leading-segment test succeeds exactly when the tested list splits
off the candidate at the front. -/
theorem listHasPre_iff (p s : List Char) : listHasPre p s = true ↔ ∃ r, s = p ++ r := by
  induction p generalizing s with
  | nil => simp [listHasPre]
  | cons c ps ih =>
    cases s with
    | nil => simp [listHasPre]
    | cons x xs =>
      simp only [listHasPre, Bool.and_eq_true, beq_iff_eq, ih, List.cons_append,
        List.cons.injEq]
      constructor
      · rintro ⟨rfl, r, rfl⟩
        exact ⟨r, rfl, rfl⟩
      · rintro ⟨r, rfl, rfl⟩
        exact ⟨rfl, r, rfl⟩

/-- A trailing-segment test succeeds exactly when the tested list splits
off the candidate at the back. -/
theorem listHasSuf_iff (w s : List Char) : listHasSuf w s = true ↔ ∃ t, s = t ++ w := by
  unfold listHasSuf
  rw [listHasPre_iff]
  constructor
  · rintro ⟨r, hr⟩
    refine ⟨r.reverse, ?_⟩
    have := congrArg List.reverse hr
    simpa using this
  · rintro ⟨t, rfl⟩
    exact ⟨t.reverse, by simp⟩

/-- A successful containment test yields a decomposition around the
contained segment. -/
theorem listHasSub_exists (w s : List Char) (h : listHasSub w s = true) :
    ∃ t r, s = t ++ (w ++ r) := by
  induction s with
  | nil =>
    have : ∃ r, ([] : List Char) = w ++ r := (listHasPre_iff w []).mp h
    obtain ⟨r, hr⟩ := this
    have hw : w = [] := by
      cases w with
      | nil => rfl
      | cons a as => simp at hr
    exact ⟨[], [], by simp [hw, ← hr]⟩
  | cons x xs ih =>
    rcases Bool.or_eq_true _ _ |>.mp h with h1 | h2
    · obtain ⟨r, hr⟩ := (listHasPre_iff _ _).mp h1
      exact ⟨[], r, by simp [hr]⟩
    · obtain ⟨t, r, hr⟩ := ih h2
      exact ⟨x :: t, r, by simp [hr]⟩

/-- Appending extra characters preserves a leading match of an
alternative. -/
theorem altMatchesHere_append (ts : List RegexToken) (w r : List Char)
    (h : altMatchesHere ts w = true) : altMatchesHere ts (w ++ r) = true := by
  induction ts generalizing w with
  | nil => simp [altMatchesHere]
  | cons t ts ih =>
    cases w with
    | nil =>
      exfalso
      cases t <;> simp [altMatchesHere] at h
    | cons x xs =>
      cases t with
      | lit c =>
        simp only [altMatchesHere, Bool.and_eq_true] at h ⊢
        exact ⟨h.1, ih xs h.2⟩
      | anyChar =>
        simp only [altMatchesHere, Bool.and_eq_true] at h ⊢
        exact ⟨h.1, ih xs h.2⟩

/-- An alternative that matches at the front of `w` matches somewhere in
any list ending in `w`. -/
theorem somewhere_of_here_suffix (ts : List RegexToken) (t w : List Char)
    (h : altMatchesHere ts w = true) : altMatchesSomewhere ts (t ++ w) = true := by
  induction t with
  | nil =>
    cases w with
    | nil => simpa [altMatchesSomewhere] using h
    | cons x xs => simp [altMatchesSomewhere, h]
  | cons x xs ih => simp [altMatchesSomewhere, ih]

/-- A file is excluded as soon as one alternative of the parsed pattern
matches somewhere in its name. -/
theorem excluded_of_mem_alt (p s : String) (alts : List (List RegexToken))
    (a : List RegexToken) (hp : parsePattern p = some alts) (ha : a ∈ alts)
    (hm : altMatchesSomewhere a s.data = true) : routeFileExcluded p s = true := by
  unfold routeFileExcluded
  rw [hp]
  simp only [Option.getD_some, List.any_eq_true]
  exact ⟨a, ha, hm⟩

/-- A file whose name decomposes around a segment matched at its front by
the `i`-th alternative of the configured pattern is excluded. -/
theorem excluded_of_alt_at (i : Nat) (hi : i < pAlts.length) (s : String)
    (w t r : List Char) (hdec : s.data = t ++ (w ++ r))
    (hm : altMatchesHere (pAlts.get ⟨i, hi⟩) w = true) :
    routeFileExcluded routeFileIgnorePattern s = true := by
  apply excluded_of_mem_alt _ _ pAlts (pAlts.get ⟨i, hi⟩) pAlts_spec (List.get_mem _ _ _)
  rw [hdec]
  exact somewhere_of_here_suffix _ _ _ (altMatchesHere_append _ _ _ hm)

/-- Building a string from a slash-headed character list is appending to
the separator string. -/
theorem strMk_slash_cons (s : String) : String.mk ('/' :: s.data) = "/" ++ s := by
  cases s
  rfl

/-- A string extending an absolute path is absolute. -/
theorem isAbsolute_append (a b : String) (h : isAbsolute a = true) :
    isAbsolute (a ++ b) = true := by
  cases a with
  | mk l =>
    cases b with
    | mk m =>
      cases l with
      | nil => simp [isAbsolute] at h
      | cons c cs => simpa [isAbsolute, String.append] using h

/-- Normalising an absolute path yields an absolute path. -/
theorem isAbsolute_normalizePath (p : String) (h : isAbsolute p = true) :
    isAbsolute (normalizePath p) = true := by
  unfold normalizePath
  rw [h]
  rfl

/-- The resolution of the source directory from an absolute
configuration-file directory ignores the working directory. -/
theorem nodeResolve_cwd_irrelevant (c₁ c₂ d : String) (hd : isAbsolute d = true) :
    nodeResolve c₁ [d, "./src"] = nodeResolve c₂ [d, "./src"] := by
  simp [nodeResolve, joinRight, hd]

/-- The resolution of the source directory from an absolute
configuration-file directory is an absolute path. -/
theorem nodeResolve_absolute (c d : String) (hd : isAbsolute d = true) :
    isAbsolute (nodeResolve c [d, "./src"]) = true := by
  unfold nodeResolve
  apply isAbsolute_normalizePath
  simp only [List.foldl, joinRight, hd, if_true]
  have h2 : isAbsolute ("./src") = false := rfl
  rw [h2]
  simp only [Bool.false_eq_true, if_false]
  exact isAbsolute_append _ _ (isAbsolute_append _ _ hd)

/-- A name ending in a marker matched at its front by the `i`-th
alternative of the configured pattern is excluded. -/
theorem excluded_of_marker_suffix (i : Nat) (hi : i < pAlts.length) (m s : String)
    (hm : altMatchesHere (pAlts.get ⟨i, hi⟩) m.data = true)
    (h : endsWithMarker m s = true) :
    routeFileExcluded routeFileIgnorePattern s = true := by
  have h2 : listHasSuf m.data s.data = true := h
  obtain ⟨t, ht⟩ := (listHasSuf_iff _ _).mp h2
  exact excluded_of_alt_at i hi s m.data t [] (by rw [ht, List.append_nil]) hm

/-- A name containing a marker matched at its front by the `i`-th
alternative of the configured pattern is excluded. -/
theorem excluded_of_marker_contained (i : Nat) (hi : i < pAlts.length) (m s : String)
    (hm : altMatchesHere (pAlts.get ⟨i, hi⟩) m.data = true)
    (h : containsMarker m s = true) :
    routeFileExcluded routeFileIgnorePattern s = true := by
  have h2 : listHasSub m.data s.data = true := h
  obtain ⟨t, r, ht⟩ := listHasSub_exists _ _ h2
  exact excluded_of_alt_at i hi s m.data t r ht hm

/-- Claim C1: every file under the routes directory whose name matches
the configured exclusion pattern yields no route entry from the route
generator. -/
theorem c1_matching_file_not_generated (files : List String) (f : String)
    (h : routeFileExcluded routeFileIgnorePattern f = true) :
    f ∉ generateRoutes routeFileIgnorePattern files := by
  intro hmem
  simp only [generateRoutes, List.mem_filter, h, Bool.not_true, Bool.false_eq_true,
    and_false] at hmem

/-- Concrete instance of C1: a file matching the test-marker alternative
is absent from the generated routes. -/
theorem c1_matching_file_not_generated_witness :
    ("a.test.tsx") ∉ generateRoutes routeFileIgnorePattern ["a.test.tsx", "index.tsx"] :=
  c1_matching_file_not_generated _ _ (by decide)

/-- Claim C2: a file whose name does not match the exclusion pattern
yields exactly one route entry per occurrence, and names under a
dash-prefixed private folder such as `-components/` match none of the
four alternatives of the pattern. -/
theorem c2_nonmatching_file_single_entry :
    (∀ (files : List String) (f : String),
      routeFileExcluded routeFileIgnorePattern f = false →
      (generateRoutes routeFileIgnorePattern files).count f = files.count f)
    ∧ (∀ a ∈ pAlts, altMatchesSomewhere a (String.data ("-components/button.tsx")) = false)
    ∧ routeFileExcluded routeFileIgnorePattern ("-components/button.tsx") = false := by
  refine ⟨?_, by decide, by decide⟩
  intro files f hf
  unfold generateRoutes
  apply List.count_filter
  simp [hf]

/-- Concrete instance of C2: a non-matching file appearing once yields
exactly one route entry. -/
theorem c2_nonmatching_file_single_entry_witness :
    (generateRoutes routeFileIgnorePattern ["about.tsx", "contact.tsx"]).count ("about.tsx")
      = (["about.tsx", "contact.tsx"] : List String).count ("about.tsx") :=
  c2_nonmatching_file_single_entry.1 _ _ (by decide)

/-- Claim C3 is false as stated: the pattern does not identify exactly
the four described classes.  The name `a.testXts.tsx` ends in no marker,
contains no `__tests__` and is not private, yet the pattern excludes it;
conversely the private-folder name `-components` is not matched. -/
theorem c3_exclusion_classes_counterexample :
    routeFileExcluded routeFileIgnorePattern ("a.testXts.tsx") = true
    ∧ endsWithMarker (".stories.tsx") ("a.testXts.tsx") = false
    ∧ endsWithMarker (".model.ts") ("a.testXts.tsx") = false
    ∧ endsWithMarker (".test.ts") ("a.testXts.tsx") = false
    ∧ containsMarker ("__tests__") ("a.testXts.tsx") = false
    ∧ isPrivateName ("a.testXts.tsx") = false
    ∧ isPrivateName ("-components") = true
    ∧ routeFileExcluded routeFileIgnorePattern ("-components") = false := by
  decide

/-- Claim C3 as amended: the pattern is the pipe-separated list of the
four alternatives `.stories.tsx`, `.model.ts`, `.test.ts` and
`__tests__`; every name ending in one of the three marker suffixes and
every name containing `__tests__` is excluded; a dash-prefixed
private-folder name is not matched by the pattern. -/
theorem c3_amended_exclusion_classes :
    (splitOnChar '|' routeFileIgnorePattern.data).map String.mk
        = [".stories.tsx", ".model.ts", ".test.ts", "__tests__"]
    ∧ (∀ s : String, endsWithMarker (".stories.tsx") s = true →
        routeFileExcluded routeFileIgnorePattern s = true)
    ∧ (∀ s : String, endsWithMarker (".model.ts") s = true →
        routeFileExcluded routeFileIgnorePattern s = true)
    ∧ (∀ s : String, endsWithMarker (".test.ts") s = true →
        routeFileExcluded routeFileIgnorePattern s = true)
    ∧ (∀ s : String, containsMarker ("__tests__") s = true →
        routeFileExcluded routeFileIgnorePattern s = true)
    ∧ routeFileExcluded routeFileIgnorePattern ("-components/button.tsx") = false := by
  refine ⟨by decide, ?_, ?_, ?_, ?_, by decide⟩
  · exact fun s h => excluded_of_marker_suffix 0 (by decide) (".stories.tsx") s (by decide) h
  · exact fun s h => excluded_of_marker_suffix 1 (by decide) (".model.ts") s (by decide) h
  · exact fun s h => excluded_of_marker_suffix 2 (by decide) (".test.ts") s (by decide) h
  · exact fun s h => excluded_of_marker_contained 3 (by decide) ("__tests__") s (by decide) h

/-- Concrete instance of the amended C3: a story-marker name and a name
inside a `__tests__` directory are both excluded. -/
theorem c3_amended_exclusion_classes_witness :
    routeFileExcluded routeFileIgnorePattern ("home.stories.tsx") = true
    ∧ routeFileExcluded routeFileIgnorePattern ("util/__tests__/helper.tsx") = true :=
  ⟨c3_amended_exclusion_classes.2.1 ("home.stories.tsx") (by decide),
   c3_amended_exclusion_classes.2.2.2.2.1 ("util/__tests__/helper.tsx") (by decide)⟩

/-- Claim C4: the configuration registers exactly three plugins, in the
order router plugin, React plugin, Tailwind plugin. -/
theorem c4_plugin_registration (d c : String) (e : String → Option String) :
    (evalConfigModule d c e).plugins
        = [PluginDesc.tanStackRouterVite routerPluginOptions, PluginDesc.react,
           PluginDesc.tailwindcss]
    ∧ (evalConfigModule d c e).plugins.length = 3 :=
  ⟨rfl, rfl⟩

/-- Claim C5: the configuration declares exactly one path alias, mapping
`@` to the resolution of `./src` against the configuration directory,
and every module reference starting with the prefix resolves to a path
under that directory. -/
theorem c5_single_alias_resolution (d c : String) (e : String → Option String) :
    (evalConfigModule d c e).resolveAlias = [("@", nodeResolve c [d, "./src"])]
    ∧ (evalConfigModule d c e).resolveAlias.length = 1
    ∧ ∀ rest : String,
        applyAlias (evalConfigModule d c e).resolveAlias ("@/" ++ rest)
          = nodeResolve c [d, "./src"] ++ ("/" ++ rest) := by
  refine ⟨rfl, rfl, ?_⟩
  intro rest
  have hdata : ("@/" ++ rest).data = '@' :: '/' :: rest.data := by
    rw [String.data_append]
    rfl
  have hpred : (fun kv : String × String =>
      (("@/" ++ rest) == kv.1) || listHasPre (kv.1 ++ "/").data ("@/" ++ rest).data)
      ("@", nodeResolve c [d, "./src"]) = true := by
    show ((("@/" ++ rest) == "@") || listHasPre (("@" : String) ++ "/").data ("@/" ++ rest).data)
        = true
    apply (Bool.or_eq_true _ _).mpr
    right
    rw [hdata]
    rfl
  have hfind : (evalConfigModule d c e).resolveAlias.find?
      (fun kv => (("@/" ++ rest) == kv.1) || listHasPre (kv.1 ++ "/").data ("@/" ++ rest).data)
      = some ("@", nodeResolve c [d, "./src"]) :=
    List.find?_cons_of_pos _ hpred
  unfold applyAlias
  rw [hfind, hdata, ← strMk_slash_cons rest]
  rfl

/-- Claim C6: a malformed exclusion pattern (here the lone unbalanced
parenthesis, which is not a valid regular expression) raises no error in
configuration loading or route generation and silently excludes no file:
every file still receives its route entry. -/
theorem c6_malformed_pattern_silent :
    parsePattern ("(") = none
    ∧ (∀ f : String, routeFileExcluded ("(") f = false)
    ∧ (∀ files : List String, generateRoutes ("(") files = files) := by
  refine ⟨rfl, fun f => rfl, fun files => ?_⟩
  unfold generateRoutes
  apply List.filter_eq_self.mpr
  intro a _
  rfl

/-- Claim C7: the configuration module is deterministic and reads neither
the process environment nor the working directory: two evaluations with
the same (absolute) configuration-file directory yield identical
configuration objects. -/
theorem c7_deterministic_config (d c₁ c₂ : String) (e₁ e₂ : String → Option String)
    (hd : isAbsolute d = true) :
    evalConfigModule d c₁ e₁ = evalConfigModule d c₂ e₂ := by
  unfold evalConfigModule
  rw [nodeResolve_cwd_irrelevant c₁ c₂ d hd]

/-- Concrete instance of C7: two evaluations under different working
directories and environments agree. -/
theorem c7_deterministic_config_witness :
    evalConfigModule ("/repo") ("/home/a") (fun _ => some ("1"))
      = evalConfigModule ("/repo") ("/home/b") (fun _ => none) :=
  c7_deterministic_config ("/repo") ("/home/a") ("/home/b") (fun _ => some ("1"))
    (fun _ => none) (by decide)

/-- Claim C8: the router plugin is configured with automatic code
splitting enabled. -/
theorem c8_auto_code_splitting (d c : String) (e : String → Option String) :
    routerPluginOptions.autoCodeSplitting = true
    ∧ (evalConfigModule d c e).plugins.head?
        = some (PluginDesc.tanStackRouterVite routerPluginOptions) :=
  ⟨rfl, rfl⟩

/-- Claim C9: the alias target is computed from the configuration file's
own (absolute) directory, so the declared alias table is independent of
the process working directory and its target is an absolute path. -/
theorem c9_alias_cwd_independent (d c₁ c₂ : String) (e : String → Option String)
    (hd : isAbsolute d = true) :
    (evalConfigModule d c₁ e).resolveAlias = (evalConfigModule d c₂ e).resolveAlias
    ∧ (evalConfigModule d c₁ e).resolveAlias = [("@", nodeResolve c₁ [d, "./src"])]
    ∧ isAbsolute (nodeResolve c₁ [d, "./src"]) = true := by
  refine ⟨?_, rfl, nodeResolve_absolute c₁ d hd⟩
  show [("@", nodeResolve c₁ [d, "./src"])] = [("@", nodeResolve c₂ [d, "./src"])]
  rw [nodeResolve_cwd_irrelevant c₁ c₂ d hd]

/-- Concrete instance of C9: under two different working directories the
alias table is the same and its target is absolute. -/
theorem c9_alias_cwd_independent_witness :
    (evalConfigModule ("/repo") ("/x") (fun _ => none)).resolveAlias
        = (evalConfigModule ("/repo") ("/tmp") (fun _ => none)).resolveAlias
    ∧ (evalConfigModule ("/repo") ("/x") (fun _ => none)).resolveAlias
        = [("@", nodeResolve ("/x") ["/repo", "./src"])]
    ∧ isAbsolute (nodeResolve ("/x") ["/repo", "./src"]) = true :=
  c9_alias_cwd_independent ("/repo") ("/x") ("/tmp") (fun _ => none) (by decide)

/-- Claim C10: the dots of the pattern are unescaped wildcards: the name
`Xmodel-ts.tsx` ends in none of the three literal suffixes and does not
contain `__tests__`, yet it is matched and excluded from route
generation. -/
theorem c10_wildcard_dot_overmatch :
    routeFileExcluded routeFileIgnorePattern ("Xmodel-ts.tsx") = true
    ∧ endsWithMarker (".stories.tsx") ("Xmodel-ts.tsx") = false
    ∧ endsWithMarker (".model.ts") ("Xmodel-ts.tsx") = false
    ∧ endsWithMarker (".test.ts") ("Xmodel-ts.tsx") = false
    ∧ containsMarker ("__tests__") ("Xmodel-ts.tsx") = false
    ∧ ("Xmodel-ts.tsx") ∉ generateRoutes routeFileIgnorePattern ["Xmodel-ts.tsx"] := by
  decide
